import Mathlib

/-!
Verification of the document-classification and intent-aware reranking
pipeline of the base-rag repository, as a shallow embedding in Lean 4.

The embedding covers:
- `src/utils/document_classifier.py` (DocumentClassifier),
- `src/utils/ramit_analyzer.py` (RamitContentAnalyzer),
- `src/utils/ramit_retriever.py` (RamitEnhancedRetriever).

Scores are modelled with `ℚ`; regex patterns appearing in the Python
pattern tables are modelled as token sequences (`PatTok`): the regex
classes actually used by the tables (`\s+`, `\s*`, `\d+`, `[\d,]+`,
`\w+`, `[A-Z]` under the `(?i)` flag, `.+?`, single optional characters)
each get one token constructor, and literal text (already lower-cased,
as the classifier lower-cases the document before matching) is a `lit`
token.  `re.findall` counting is modelled by `countMatches`, which scans
left to right and restarts after the end of each match, exactly as the
Python regex engine does for these patterns.
-/

namespace BaseRag

/-- Whitespace characters recognised by `\s` and by Python `str.split()`. -/
def isWsChar (c : Char) : Bool :=
  c = ' ' || c = '\t' || c = '\n' || c = '\r' || c = Char.ofNat 11 || c = Char.ofNat 12

/-- Length of the maximal prefix of `s` whose characters satisfy `p`. -/
def runLen (p : Char → Bool) : List Char → Nat
  | [] => 0
  | c :: t => if p c then runLen p t + 1 else 0

/-- `n, n-1, …, 1` : candidate consumption lengths for a greedy `+` class. -/
def descRange (n : Nat) : List Nat := (List.range n).map (fun i => n - i)

/-- `1, 2, …, n` : candidate consumption lengths for a lazy `+?` class. -/
def ascRange (n : Nat) : List Nat := (List.range n).map (fun i => i + 1)

/-- One token of a (regex) pattern from the Python pattern tables. -/
inductive PatTok where
  | lit (s : String)
  | ws
  | wsOpt
  | digits
  | digitsComma
  | wordChars
  | letter
  | anyLazy
  | optCh (c : Char)

/-- A pattern is a sequence of tokens. -/
abbrev Pattern := List PatTok

/-- Backtracking matcher for a token pattern against a prefix of `s`;
returns the remaining text after the match.  Greedy classes try the
longest consumption first, the lazy class tries the shortest first,
mirroring the Python regex engine.  The fuel argument only serves
termination: one unit is spent per token, so `toks.length + 1` always
suffices. -/
def matchToks : Nat → List PatTok → List Char → Option (List Char)
  | 0, _, _ => none
  | _ + 1, [], s => some s
  | fuel + 1, t :: ts, s =>
    match t with
    | .lit str =>
      if str.data.isPrefixOf s then matchToks fuel ts (s.drop str.data.length) else none
    | .ws =>
      (descRange (runLen isWsChar s)).findSome? (fun k => matchToks fuel ts (s.drop k))
    | .wsOpt =>
      ((descRange (runLen isWsChar s)) ++ [0]).findSome? (fun k => matchToks fuel ts (s.drop k))
    | .digits =>
      (descRange (runLen Char.isDigit s)).findSome? (fun k => matchToks fuel ts (s.drop k))
    | .digitsComma =>
      (descRange (runLen (fun c => c.isDigit || c = ',') s)).findSome?
        (fun k => matchToks fuel ts (s.drop k))
    | .wordChars =>
      (descRange (runLen (fun c => c.isAlphanum || c = '_') s)).findSome?
        (fun k => matchToks fuel ts (s.drop k))
    | .letter =>
      match s with
      | [] => none
      | c :: rest => if c.isAlpha then matchToks fuel ts rest else none
    | .anyLazy =>
      (ascRange (runLen (fun c => c ≠ '\n') s)).findSome? (fun k => matchToks fuel ts (s.drop k))
    | .optCh c =>
      match s with
      | [] => matchToks fuel ts []
      | c2 :: rest =>
        if c2 = c then
          match matchToks fuel ts rest with
          | some r => some r
          | none => matchToks fuel ts (c2 :: rest)
        else matchToks fuel ts (c2 :: rest)

/-- Fuel-indexed scanner behind `countMatches`: each step consumes at
least one character, so fuel `s.length` suffices (structural recursion
on the fuel keeps the definition kernel-computable). -/
def countMatchesAux (p : Pattern) : Nat → List Char → Nat
  | 0, _ => 0
  | _ + 1, [] => 0
  | fuel + 1, c :: rest =>
    match matchToks (p.length + 1) p (c :: rest) with
    | some r =>
      if r.length < rest.length + 1 then countMatchesAux p fuel r + 1
      else countMatchesAux p fuel rest + 1
    | none => countMatchesAux p fuel rest

/-- Number of non-overlapping matches of `p` in `s`, scanning left to
right and restarting after each match end — the count `re.findall`
produces for the table patterns. -/
def countMatches (p : Pattern) (s : List Char) : Nat :=
  countMatchesAux p s.length s

/-- `re.search` existence for a token pattern. -/
def searchTok (p : Pattern) (s : List Char) : Bool := countMatches p s != 0

/-- Python's `needle in haystack` substring test. -/
def substrB (n : List Char) : List Char → Bool
  | [] => n.isEmpty
  | c :: t => n.isPrefixOf (c :: t) || substrB n t

/-- Substring test on strings. -/
def containsStr (needle haystack : String) : Bool := substrB needle.data haystack.data

/-- Word count as computed by Python `len(content.split())`: number of
maximal runs of non-whitespace characters. -/
def wordCount (s : List Char) : Nat := go s false where
  go : List Char → Bool → Nat
    | [], _ => 0
    | c :: t, inWord =>
      if isWsChar c then go t false
      else (if inWord then 0 else 1) + go t true

/-- Python `str.lower()` (character-wise; kernel-computable, unlike
`String.toLower`). -/
def lowerStr (s : String) : String := String.mk (s.data.map Char.toLower)

/-- Split a character list at every occurrence of `sep`
(Python `str.split(sep)` semantics). -/
def splitOnChar (sep : Char) : List Char → List (List Char)
  | [] => [[]]
  | c :: t =>
    if c = sep then [] :: splitOnChar sep t
    else match splitOnChar sep t with
      | [] => [[c]]
      | w :: ws => (c :: w) :: ws

/-- Python `str.strip()` for whitespace. -/
def trimStr (s : String) : String :=
  String.mk ((dropWs ((dropWs s.data).reverse)).reverse) where
  dropWs : List Char → List Char
    | [] => []
    | c :: t => if isWsChar c then dropWs t else c :: t

/-!
Embedding of `src/utils/ramit_analyzer.py` (`RamitContentAnalyzer`).
Apostrophes inside phrase literals are written `\x27`.
-/

/-- `ContentType` enum of the analyzer. -/
inductive ContentType where
  | framework | mindset | tactical | contrarian | case_study | testing | story | numbers
deriving DecidableEq

/-- The `.value` of each enum member. -/
def ContentType.value : ContentType → String
  | .framework => "framework"
  | .mindset => "mindset"
  | .tactical => "tactical"
  | .contrarian => "contrarian"
  | .case_study => "case_study"
  | .testing => "testing"
  | .story => "story"
  | .numbers => "numbers"

/-- `RamitSignature` dataclass (the unused `context` field is omitted). -/
structure RamitSignature where
  phrase : String
  content_type : ContentType
  weight : ℚ

/-- `_initialize_signatures` table. -/
def signaturesTable : List RamitSignature := [
  ⟨"invisible scripts", .mindset, 0.9⟩,
  ⟨"money dials", .framework, 0.8⟩,
  ⟨"profit playbook", .framework, 0.9⟩,
  ⟨"customer research", .tactical, 0.7⟩,
  ⟨"winning offer", .framework, 0.8⟩,
  ⟨"authentic selling", .framework, 0.8⟩,
  ⟨"business isn\x27t magic. it\x27s math", .numbers, 0.9⟩,
  ⟨"predictable numbers", .numbers, 0.7⟩,
  ⟨"rich life", .mindset, 0.8⟩,
  ⟨"i will teach you to be rich", .mindset, 0.9⟩,
  ⟨"you don\x27t need to be an expert", .contrarian, 0.8⟩,
  ⟨"start before you\x27re ready", .contrarian, 0.8⟩,
  ⟨"stop asking for permission", .mindset, 0.7⟩,
  ⟨"most people are wrong about", .contrarian, 0.8⟩,
  ⟨"conventional wisdom says", .contrarian, 0.7⟩,
  ⟨"test it", .testing, 0.8⟩,
  ⟨"validate", .testing, 0.6⟩,
  ⟨"step by step", .tactical, 0.6⟩,
  ⟨"exact script", .tactical, 0.8⟩,
  ⟨"word for word", .tactical, 0.8⟩,
  ⟨"copy and paste", .tactical, 0.7⟩,
  ⟨"let me tell you about", .case_study, 0.7⟩,
  ⟨"student story", .case_study, 0.9⟩,
  ⟨"behind the scenes", .case_study, 0.8⟩,
  ⟨"teardown", .case_study, 0.9⟩,
  ⟨"makeover", .case_study, 0.9⟩,
  ⟨"dollar", .numbers, 0.6⟩,
  ⟨"conversion", .numbers, 0.8⟩,
  ⟨"figure", .numbers, 0.7⟩,
  ⟨"email list", .tactical, 0.6⟩,
  ⟨"subscribers", .numbers, 0.5⟩]

/-- `_initialize_frameworks` table. -/
def frameworksTable : List (String × List String) := [
  ("customer_research", ["customer research call", "mind reading", "what keeps you up at night",
    "biggest challenge", "dream outcome", "customer interviews"]),
  ("winning_offer", ["irresistible offer", "anatomy of", "positioning", "guarantee",
    "bonuses", "scarcity", "urgency", "value proposition"]),
  ("authentic_selling", ["sales call", "objection handling", "closing", "follow up",
    "building rapport", "understanding needs", "presentation"]),
  ("profit_playbook", ["business model", "revenue streams", "pricing strategy",
    "client acquisition", "systems", "automation"]),
  ("testing_framework", ["a/b test", "validate", "iterate", "feedback", "metrics",
    "conversion rate", "optimize", "experiment"])]

/-- `_initialize_contrarian_indicators` table. -/
def contrarianIndicators : List String := [
  "most people think", "conventional wisdom", "everyone says",
  "typical advice", "wrong approach", "don\x27t listen to",
  "opposite of what", "counterintuitive", "surprising truth",
  "myth", "misconception", "big mistake", "dead wrong"]

/-- The mutable `analysis` record built by `analyze_content`.  The Python
sets `ramit_content_types` and `ramit_frameworks` are modelled as
duplicate-free lists in insertion order (CPython set iteration order is
unspecified; only membership is ever relevant). -/
structure Analysis where
  ramit_content_types : List String
  ramit_frameworks : List String
  ramit_signatures : List String
  contrarian_score : ℚ
  tactical_score : ℚ
  framework_score : ℚ
  case_study_score : ℚ
  mindset_score : ℚ
  testing_score : ℚ
  numbers_score : ℚ
  story_score : ℚ
deriving DecidableEq

/-- The freshly initialised `analysis` dict at the top of `analyze_content`. -/
def initAnalysis : Analysis :=
  ⟨[], [], [], 0, 0, 0, 0, 0, 0, 0, 0⟩

/-- Set insertion (`set.add`), keeping first-insertion order. -/
def insertIfAbsent (l : List String) (x : String) : List String :=
  if x ∈ l then l else l ++ [x]

/-- `analysis["ramit_content_types"].add t`. -/
def addTypeTag (a : Analysis) (t : String) : Analysis :=
  { a with ramit_content_types := insertIfAbsent a.ramit_content_types t }

/-- `analysis[f"{ct.value}_score"] += w` (the key always exists). -/
def addScore (a : Analysis) (ct : ContentType) (w : ℚ) : Analysis :=
  match ct with
  | .framework => { a with framework_score := a.framework_score + w }
  | .mindset => { a with mindset_score := a.mindset_score + w }
  | .tactical => { a with tactical_score := a.tactical_score + w }
  | .contrarian => { a with contrarian_score := a.contrarian_score + w }
  | .case_study => { a with case_study_score := a.case_study_score + w }
  | .testing => { a with testing_score := a.testing_score + w }
  | .story => { a with story_score := a.story_score + w }
  | .numbers => { a with numbers_score := a.numbers_score + w }

/-- Loop body of `_analyze_signatures`.  The `re.search` of the literal
phrase against the lower-cased content is a substring test. -/
def signatureStep (content : List Char) (a : Analysis) (s : RamitSignature) : Analysis :=
  if substrB s.phrase.data content then
    let a := { a with ramit_signatures := a.ramit_signatures ++ [s.phrase] }
    let a := addTypeTag a s.content_type.value
    addScore a s.content_type s.weight
  else a

/-- `_analyze_signatures`. -/
def analyzeSignatures (content : List Char) (a : Analysis) : Analysis :=
  signaturesTable.foldl (signatureStep content) a

/-- Number of keywords of one framework present in the content
(`sum(1 for keyword in keywords if keyword in content)`). -/
def frameworkKeywordCount (content : List Char) (fw : String × List String) : Nat :=
  (fw.2.filter (fun kw => substrB kw.data content)).length

/-- Loop body of `_analyze_frameworks`. -/
def frameworkStep (content : List Char) (a : Analysis) (fw : String × List String) : Analysis :=
  let m := frameworkKeywordCount content fw
  if 2 ≤ m then
    { a with ramit_frameworks := insertIfAbsent a.ramit_frameworks fw.1,
             framework_score := a.framework_score + m * 0.2 }
  else a

/-- `_analyze_frameworks`. -/
def analyzeFrameworks (content : List Char) (a : Analysis) : Analysis :=
  frameworksTable.foldl (frameworkStep content) a

/-- Number of contrarian indicators present in the content. -/
def contrarianIndicatorCount (content : List Char) : Nat :=
  (contrarianIndicators.filter (fun i => substrB i.data content)).length

/-- `_analyze_contrarian_content`.  Note the assignment
`analysis["contrarian_score"] = contrarian_matches * 0.3`, which
replaces (rather than increments) the running contrarian score. -/
def analyzeContrarianContent (content : List Char) (a : Analysis) : Analysis :=
  let m := contrarianIndicatorCount content
  let a := { a with contrarian_score := m * 0.3 }
  if 0 < m then addTypeTag a "contrarian" else a

/-- `step_patterns` of `_analyze_content_structure`. -/
def stepPatterns : List Pattern :=
  [[.lit "step ", .digits], [.digits, .lit "."], [.lit "first,"], [.lit "second,"], [.lit "third,"]]

/-- `story_patterns` of `_analyze_content_structure`. -/
def storyPatterns : List Pattern :=
  [[.lit "let me tell you"], [.lit "here\x27s what happened"], [.lit "student named"],
   [.lit "client story"], [.lit "real example"]]

/-- `number_patterns` of `_analyze_content_structure`. -/
def numberPatterns : List Pattern :=
  [[.lit "$", .digitsComma], [.digits, .lit "%"], [.digits, .lit " times"], [.digits, .lit " figure"]]

/-- `testing_patterns` of `_analyze_content_structure`. -/
def testingPatterns : List Pattern :=
  [[.lit "test"], [.lit "experiment"], [.lit "try this"], [.lit "validate"]]

/-- `any(re.search(pattern, content) for pattern in step_patterns)`. -/
def stepHit (content : List Char) : Bool :=
  stepPatterns.any (fun p => searchTok p content)

/-- `any(re.search(pattern, content) for pattern in story_patterns)`. -/
def storyHit (content : List Char) : Bool :=
  storyPatterns.any (fun p => searchTok p content)

/-- `sum(1 for pattern in number_patterns if re.search(pattern, content))`. -/
def numberPatternCount (content : List Char) : Nat :=
  (numberPatterns.filter (fun p => searchTok p content)).length

/-- `sum(1 for pattern in testing_patterns if re.search(pattern, content))`. -/
def testingPatternCount (content : List Char) : Nat :=
  (testingPatterns.filter (fun p => searchTok p content)).length

/-- `_analyze_content_structure`.  The Python code runs these searches
case-insensitively on the original-case chunk text; matching the
lower-cased patterns against the lower-cased content is equivalent, so
the embedding receives the lower-cased content. -/
def analyzeContentStructure (content : List Char) (a : Analysis) : Analysis :=
  let a := if stepHit content then
    addTypeTag { a with tactical_score := a.tactical_score + 0.5 } "tactical" else a
  let a := if storyHit content then
    addTypeTag { a with case_study_score := a.case_study_score + 0.5,
                        story_score := a.story_score + 0.5 } "case_study" else a
  let nm := numberPatternCount content
  let a := if 0 < nm then
    addTypeTag { a with numbers_score := a.numbers_score + nm * 0.3 } "numbers" else a
  let tm := testingPatternCount content
  if 1 < tm then
    addTypeTag { a with testing_score := a.testing_score + tm * 0.2 } "testing" else a

/-- The full analysis pipeline of `analyze_content` on the lower-cased
content, before metadata enhancement. -/
def runAnalysis (content : List Char) : Analysis :=
  analyzeContentStructure content
    (analyzeContrarianContent content
      (analyzeFrameworks content
        (analyzeSignatures content initAnalysis)))

/-- First key attaining the maximal value (Python `max(d, key=d.get)`
keeps the first maximum in iteration order). -/
def pickMaxQ {α : Type} (l : List (α × ℚ)) : Option (α × ℚ) :=
  l.foldl (fun acc p =>
    match acc with
    | none => some p
    | some q => if p.2 > q.2 then some p else some q) none

/-- `_determine_primary_content_type`. -/
def primaryContentType (a : Analysis) : String :=
  let scores : List (String × ℚ) :=
    [("framework", a.framework_score), ("tactical", a.tactical_score),
     ("contrarian", a.contrarian_score), ("case_study", a.case_study_score),
     ("mindset", a.mindset_score), ("testing", a.testing_score),
     ("numbers", a.numbers_score), ("story", a.story_score)]
  match pickMaxQ scores with
  | some kv => if kv.2 > 0.5 then kv.1 else "general"
  | none => "general"

/-- A metadata value: the stored scalars are strings or numbers. -/
inductive MValue where
  | str (s : String)
  | num (q : ℚ)
deriving DecidableEq

/-- A chunk metadata mapping (`dict`-like: key to optional value). -/
def Metadata : Type := String → Option MValue

/-- `analyze_content`: returns a copy of the input metadata with the
twelve expert-specific keys overwritten from the analysis (the Python
code copies the dict and calls `update`, leaving the caller's dict
untouched — the embedding is pure, so the input is unmodified by
construction). -/
def analyzeContent (content : String) (metadata : Metadata) : Metadata :=
  let a := runAnalysis (lowerStr content).data
  let primary := primaryContentType a
  fun k =>
    if k = "ramit_primary_type" then some (.str primary)
    else if k = "ramit_content_types" then some (.str (String.intercalate "," a.ramit_content_types))
    else if k = "ramit_frameworks" then some (.str (String.intercalate "," a.ramit_frameworks))
    else if k = "ramit_signatures" then some (.str (String.intercalate "," a.ramit_signatures))
    else if k = "ramit_contrarian_score" then some (.num a.contrarian_score)
    else if k = "ramit_tactical_score" then some (.num a.tactical_score)
    else if k = "ramit_framework_score" then some (.num a.framework_score)
    else if k = "ramit_case_study_score" then some (.num a.case_study_score)
    else if k = "ramit_mindset_score" then some (.num a.mindset_score)
    else if k = "ramit_testing_score" then some (.num a.testing_score)
    else if k = "ramit_numbers_score" then some (.num a.numbers_score)
    else if k = "ramit_story_score" then some (.num a.story_score)
    else metadata k

/-- The twelve keys `analyze_content` writes. -/
def analyzerKeys : List String :=
  ["ramit_primary_type", "ramit_content_types", "ramit_frameworks", "ramit_signatures",
   "ramit_contrarian_score", "ramit_tactical_score", "ramit_framework_score",
   "ramit_case_study_score", "ramit_mindset_score", "ramit_testing_score",
   "ramit_numbers_score", "ramit_story_score"]

/-!
Embedding of `src/utils/document_classifier.py` (`DocumentClassifier`).
`classify_document` lower-cases the document text before any matching
and every table pattern carries the `(?i)` flag, so patterns are stored
lower-cased and matched case-sensitively against the lower-cased text.
`phraseP` renders the ubiquitous `word\s+word\s+…` regex shape.
-/

/-- Tokenize a multi-word literal regex `w1\s+w2\s+…\s+wn`. -/
def phraseP (s : String) : Pattern :=
  (((splitOnChar ' ' s.data).map (fun w => PatTok.lit (String.mk w)))).intersperse .ws

/-- Render one token back to its regex source text (for evidence strings). -/
def renderTok : PatTok → String
  | .lit s => s
  | .ws => "\\s+"
  | .wsOpt => "\\s*"
  | .digits => "\\d+"
  | .digitsComma => "[\\d,]+"
  | .wordChars => "\\w+"
  | .letter => "[A-Z]"
  | .anyLazy => "(.+?)"
  | .optCh c => String.mk [c] ++ "?"

/-- Render a pattern back to its regex source text. -/
def renderPat (p : Pattern) : String := "(?i)" ++ String.join (p.map renderTok)

/-- `DocumentSourceType` enum. -/
inductive DocumentSourceType where
  | structured_lesson | live_qa | student_teardown | behind_scenes
  | business_makeover | case_study | unknown
deriving DecidableEq

/-- `.value` of `DocumentSourceType`. -/
def DocumentSourceType.value : DocumentSourceType → String
  | .structured_lesson => "structured_lesson"
  | .live_qa => "live_qa"
  | .student_teardown => "student_teardown"
  | .behind_scenes => "behind_scenes"
  | .business_makeover => "business_makeover"
  | .case_study => "case_study"
  | .unknown => "unknown"

/-- `TeachingContext` enum. -/
inductive TeachingContext where
  | systematic_instruction | situational_advice | troubleshooting
  | example_application | diagnostic | unknown
deriving DecidableEq

/-- `.value` of `TeachingContext`. -/
def TeachingContext.value : TeachingContext → String
  | .systematic_instruction => "systematic_instruction"
  | .situational_advice => "situational_advice"
  | .troubleshooting => "troubleshooting"
  | .example_application => "example_application"
  | .diagnostic => "diagnostic"
  | .unknown => "unknown"

/-- `ConfidenceLevel` enum. -/
inductive ConfidenceLevel where
  | definitive_framework | suggested_approach | off_the_cuff | exploratory | unknown
deriving DecidableEq

/-- `.value` of `ConfidenceLevel`. -/
def ConfidenceLevel.value : ConfidenceLevel → String
  | .definitive_framework => "definitive_framework"
  | .suggested_approach => "suggested_approach"
  | .off_the_cuff => "off_the_cuff"
  | .exploratory => "exploratory"
  | .unknown => "unknown"

/-- `_initialize_source_type_patterns` table. -/
def sourceTypePatterns : List (DocumentSourceType × List Pattern) := [
  (.structured_lesson, [
    [.lit "lesson", .ws, .digits],
    [.lit "module", .ws, .digits],
    [.lit "chapter", .ws, .digits],
    [.lit "the", .ws, .anyLazy, .ws, .lit "framework"],
    phraseP "anatomy of",
    phraseP "step by step",
    phraseP "here\x27s the exact system",
    [.lit "component", .optCh 's', .ws, .lit "of"],
    phraseP "blueprint for",
    phraseP "complete guide",
    phraseP "systematic approach",
    [.lit "methodology"],
    phraseP "process overview"]),
  (.live_qa, [
    [.lit "q", .wsOpt, .lit "&", .wsOpt, .lit "a"],
    phraseP "question and answer",
    phraseP "live session",
    phraseP "office hours",
    phraseP "that\x27s a great question",
    phraseP "someone asked",
    phraseP "participant question",
    phraseP "student question",
    phraseP "chat question",
    [.lit "ramit:", .wsOpt],
    [.lit "student:", .wsOpt],
    phraseP "audience member",
    phraseP "from the chat",
    phraseP "good question"]),
  (.student_teardown, [
    phraseP "student teardown",
    phraseP "teardown session",
    phraseP "student spotlight",
    phraseP "before and after",
    phraseP "student transformation",
    phraseP "real student example",
    [.lit "case", .ws, .lit "study:", .wsOpt, .letter],
    [.lit "let", .ws, .lit "me", .ws, .lit "show", .ws, .lit "you", .ws, .lit "what", .ws,
     .letter, .wordChars, .ws, .lit "did"],
    phraseP "student story",
    phraseP "success story",
    phraseP "transformation story",
    phraseP "one of our students",
    phraseP "worked with a student"]),
  (.behind_scenes, [
    phraseP "behind the scenes",
    [.lit "bts", .ws],
    phraseP "exclusive content",
    phraseP "bonus material",
    phraseP "deep dive",
    phraseP "advanced training",
    phraseP "insider perspective",
    phraseP "what we don\x27t talk about",
    phraseP "the real story",
    phraseP "truth about",
    phraseP "rarely discussed",
    [.lit "confidential"]]),
  (.business_makeover, [
    phraseP "business makeover",
    phraseP "makeover session",
    phraseP "business audit",
    phraseP "diagnostic session",
    phraseP "let\x27s fix your business",
    phraseP "business review",
    phraseP "what\x27s wrong with",
    [.lit "problem", .optCh 's', .ws, .lit "with", .ws, .lit "your", .ws, .lit "business"],
    phraseP "business diagnosis",
    phraseP "transformation session"]),
  (.case_study, [
    phraseP "case study",
    phraseP "real example",
    phraseP "client example",
    phraseP "actual results",
    phraseP "results breakdown",
    [.lit "how", .ws, .letter, .wordChars, .ws, .lit "made"],
    phraseP "inside look at",
    phraseP "detailed analysis",
    phraseP "step by step walkthrough"])]

/-- `_initialize_teaching_context_patterns` table. -/
def teachingContextPatterns : List (TeachingContext × List Pattern) := [
  (.systematic_instruction, [
    phraseP "here\x27s the exact system",
    phraseP "framework for",
    [.lit "step", .ws, .lit "1", .wsOpt, .lit ":"],
    [.lit "step", .ws, .lit "2", .wsOpt, .lit ":"],
    [.lit "first", .optCh ',', .ws, .lit "you", .ws, .lit "need", .ws, .lit "to"],
    [.lit "second", .optCh ',', .ws, .lit "you", .ws, .lit "need", .ws, .lit "to"],
    phraseP "process is simple",
    phraseP "here\x27s how it works",
    phraseP "methodology is",
    phraseP "systematic approach",
    phraseP "blueprint for",
    phraseP "formula for",
    phraseP "template for"]),
  (.situational_advice, [
    phraseP "depends on your situation",
    phraseP "in your case",
    phraseP "for your specific situation",
    phraseP "it depends",
    phraseP "that\x27s a great question",
    phraseP "here\x27s what i would do",
    phraseP "my recommendation would be",
    phraseP "in this scenario",
    phraseP "contextual advice",
    phraseP "situational guidance",
    phraseP "case by case",
    phraseP "individual circumstances"]),
  (.troubleshooting, [
    [.lit "what", .ws, .lit "if", .ws],
    phraseP "common mistake",
    phraseP "problem is",
    phraseP "issue you might face",
    phraseP "here\x27s what to do when",
    phraseP "if you\x27re struggling",
    phraseP "solution is",
    phraseP "fix for",
    [.lit "troubleshooting"],
    phraseP "common issues",
    [.lit "problem", .optCh 's', .ws, .lit "and", .ws, .lit "solutions"],
    phraseP "when things go wrong"]),
  (.example_application, [
    phraseP "for example",
    phraseP "let me show you",
    phraseP "here\x27s an example",
    phraseP "real world example",
    phraseP "practical application",
    phraseP "in practice",
    phraseP "applied to",
    phraseP "concrete example",
    [.lit "demonstration"],
    [.lit "illustration"],
    phraseP "sample implementation",
    [.lit "walkthrough"]]),
  (.diagnostic, [
    phraseP "what\x27s wrong with",
    phraseP "diagnosis is",
    phraseP "problem here is",
    phraseP "root cause",
    phraseP "underlying issue",
    phraseP "let\x27s diagnose",
    phraseP "analysis shows",
    phraseP "assessment reveals",
    phraseP "evaluation indicates",
    phraseP "symptoms of",
    phraseP "indicators suggest",
    phraseP "signs point to"])]

/-- `_initialize_confidence_indicators` table. -/
def confidenceIndicators : List (ConfidenceLevel × List Pattern) := [
  (.definitive_framework, [
    phraseP "this is the exact",
    phraseP "here\x27s the exact system",
    phraseP "proven framework",
    phraseP "tested methodology",
    phraseP "definitive guide",
    phraseP "guaranteed approach",
    phraseP "foolproof method",
    phraseP "never fails",
    phraseP "always works",
    phraseP "100% effective",
    phraseP "scientifically proven",
    phraseP "data shows"]),
  (.suggested_approach, [
    phraseP "i recommend",
    phraseP "my suggestion is",
    phraseP "best practice is",
    phraseP "typically works well",
    phraseP "generally effective",
    phraseP "usually successful",
    phraseP "tends to work",
    phraseP "preferred method",
    phraseP "standard approach",
    phraseP "common practice",
    phraseP "most effective",
    phraseP "better approach"]),
  (.off_the_cuff, [
    phraseP "off the top of my head",
    phraseP "quick thought",
    phraseP "initial reaction",
    phraseP "gut feeling",
    [.lit "instinctively"],
    phraseP "my first thought",
    phraseP "immediate response",
    phraseP "without thinking too much",
    phraseP "spontaneous idea",
    phraseP "stream of consciousness",
    phraseP "random thought",
    phraseP "just occurred to me"]),
  (.exploratory, [
    phraseP "let\x27s explore",
    phraseP "what if we",
    phraseP "maybe we could",
    phraseP "potential approach",
    phraseP "worth considering",
    phraseP "interesting possibility",
    phraseP "might be worth",
    phraseP "could potentially",
    phraseP "experimental approach",
    phraseP "theoretical framework",
    phraseP "hypothesis is",
    phraseP "preliminary idea"])]

/-- `high_authority` patterns of `_initialize_authority_indicators`. -/
def highAuthorityPatterns : List Pattern := [
  phraseP "proven framework",
  phraseP "tested approach",
  phraseP "data shows",
  phraseP "research indicates",
  phraseP "results prove",
  phraseP "evidence suggests",
  phraseP "study found",
  phraseP "analysis reveals",
  phraseP "metrics show",
  phraseP "numbers demonstrate",
  phraseP "scientific method",
  phraseP "systematically tested"]

/-- `medium_authority` patterns of `_initialize_authority_indicators`. -/
def mediumAuthorityPatterns : List Pattern := [
  phraseP "best practice",
  phraseP "recommended approach",
  phraseP "typically effective",
  phraseP "generally works",
  phraseP "standard method",
  phraseP "common practice",
  phraseP "industry standard",
  phraseP "widely accepted",
  phraseP "professional opinion",
  phraseP "expert advice",
  phraseP "experienced perspective",
  phraseP "time tested"]

/-- `low_authority` patterns of `_initialize_authority_indicators`. -/
def lowAuthorityPatterns : List Pattern := [
  phraseP "personal opinion",
  phraseP "my take on",
  phraseP "i think",
  phraseP "i believe",
  phraseP "in my experience",
  phraseP "gut feeling",
  phraseP "instinct tells me",
  [.lit "speculation"],
  [.lit "hypothesis"],
  phraseP "theory is",
  phraseP "might be",
  [.lit "possibly"]]

/-- `_initialize_content_quality_patterns` table. -/
def contentQualityPatterns : List (String × List Pattern) := [
  ("framework_density", [
    [.lit "framework"], [.lit "system"], [.lit "process"], [.lit "methodology"],
    [.lit "approach"], [.lit "blueprint"], [.lit "template"], [.lit "formula"]]),
  ("tactical_density", [
    phraseP "step by step",
    phraseP "exact script",
    phraseP "word for word",
    phraseP "copy and paste",
    [.lit "template"], [.lit "checklist"],
    phraseP "action items",
    [.lit "implementation"]]),
  ("case_study_density", [
    phraseP "case study",
    phraseP "real example",
    phraseP "student story",
    phraseP "success story",
    [.lit "transformation"],
    phraseP "before and after",
    [.lit "results"], [.lit "outcome"]]),
  ("contrarian_density", [
    phraseP "here\x27s where most people get this wrong",
    phraseP "conventional wisdom says",
    phraseP "everyone else tells you",
    phraseP "opposite of what",
    phraseP "myth is",
    phraseP "truth is",
    phraseP "reality is",
    phraseP "different approach"])]

/-- Python-dict score update `scores[k] = scores.get(k, 0) + w`:
existing keys keep their position, new keys are appended. -/
def updateScore {α : Type} [DecidableEq α] : List (α × ℚ) → α → ℚ → List (α × ℚ)
  | [], k, w => [(k, w)]
  | (k0, v0) :: t, k, w =>
    if k0 = k then (k0, v0 + w) :: t else (k0, v0) :: updateScore t k w

/-- Content-pattern scan shared by the three categorical classifiers:
for each pattern with a positive match count add `count * 0.1` to that
category's score and append an evidence string. -/
def scanPatternTable {α : Type} [DecidableEq α] (value : α → String)
    (table : List (α × List Pattern)) (content : List Char)
    (init : List (α × ℚ) × List String) : List (α × ℚ) × List String :=
  table.foldl (fun acc entry =>
    entry.2.foldl (fun acc p =>
      let n := countMatches p content
      if 0 < n then
        (updateScore acc.1 entry.1 ((n : ℚ) * 0.1),
         acc.2 ++ ["Found " ++ toString n ++ " matches for " ++ value entry.1 ++
                   " pattern: " ++ renderPat p])
      else acc) acc) init

/-- `_classify_source_type` (content is already lower-cased). -/
def classifySourceType (content : List Char) (filename : String) :
    DocumentSourceType × List String :=
  let fl := lowerStr filename
  let acc0 : List (DocumentSourceType × ℚ) × List String := ([], [])
  let acc1 := if containsStr "qa" fl || containsStr "q&a" fl then
      (updateScore acc0.1 .live_qa 0.3,
       acc0.2 ++ ["Filename contains Q&A indicator: " ++ filename])
    else acc0
  let acc2 := if containsStr "teardown" fl || containsStr "student" fl then
      (updateScore acc1.1 .student_teardown 0.3,
       acc1.2 ++ ["Filename contains teardown/student indicator: " ++ filename])
    else acc1
  let acc3 := if containsStr "behind" fl || containsStr "bts" fl then
      (updateScore acc2.1 .behind_scenes 0.3,
       acc2.2 ++ ["Filename contains behind scenes indicator: " ++ filename])
    else acc2
  let res := scanPatternTable DocumentSourceType.value sourceTypePatterns content acc3
  match pickMaxQ res.1 with
  | some kv => (kv.1, res.2)
  | none => (.unknown, ["No clear source type patterns found"])

/-- `_classify_teaching_context`. -/
def classifyTeachingContext (content : List Char) : TeachingContext × List String :=
  let res := scanPatternTable TeachingContext.value teachingContextPatterns content ([], [])
  match pickMaxQ res.1 with
  | some kv => (kv.1, res.2)
  | none => (.unknown, ["No clear teaching context patterns found"])

/-- `_classify_confidence_level`. -/
def classifyConfidenceLevel (content : List Char) : ConfidenceLevel × List String :=
  let res := scanPatternTable ConfidenceLevel.value confidenceIndicators content ([], [])
  match pickMaxQ res.1 with
  | some kv => (kv.1, res.2)
  | none => (.unknown, ["No clear confidence level patterns found"])

/-- Total match count of a tier of authority patterns. -/
def tierCount (pats : List Pattern) (content : List Char) : Nat :=
  (pats.map (fun p => countMatches p content)).sum

/-- Evidence strings of a tier of authority patterns. -/
def tierEvidence (label : String) (pats : List Pattern) (content : List Char) : List String :=
  pats.filterMap (fun p =>
    let n := countMatches p content
    if 0 < n then some (label ++ ": " ++ toString n ++ " matches for " ++ renderPat p)
    else none)

/-- `_calculate_authority_score`. -/
def calculateAuthorityScore (content : List Char) : ℚ × List String :=
  let h := tierCount highAuthorityPatterns content
  let m := tierCount mediumAuthorityPatterns content
  let l := tierCount lowAuthorityPatterns content
  let evidence := tierEvidence "High authority" highAuthorityPatterns content ++
    tierEvidence "Medium authority" mediumAuthorityPatterns content ++
    tierEvidence "Low authority" lowAuthorityPatterns content
  let total := h + m + l
  if total = 0 then (0.5, ["No authority indicators found - default medium authority"])
  else (((h : ℚ) * 1.0 + (m : ℚ) * 0.6 + (l : ℚ) * 0.2) / (total : ℚ), evidence)

/-- `_assess_content_quality`. -/
def assessContentQuality (content : List Char) : List (String × ℚ) :=
  let wc := wordCount content
  contentQualityPatterns.map (fun entry =>
    let count := (entry.2.map (fun p => countMatches p content)).sum
    (entry.1, if 0 < wc then min 1 ((count : ℚ) / (wc : ℚ) * 100 * 10) else 0))

/-- `_calculate_classification_confidence` over its `*evidence_lists`. -/
def calculateClassificationConfidence (evidenceLists : List (List String)) : ℚ :=
  let total := (evidenceLists.map List.length).sum
  if total = 0 then 0.1
  else if total < 5 then 0.3
  else if total < 10 then 0.6
  else if total < 20 then 0.8
  else 0.9

/-- `DocumentClassification` dataclass. -/
structure DocumentClassification where
  document_source_type : DocumentSourceType
  teaching_context : TeachingContext
  confidence_level : ConfidenceLevel
  authority_score : ℚ
  classification_confidence : ℚ
  supporting_evidence : List String
  content_quality_indicators : List (String × ℚ)
deriving DecidableEq

/-- An input document: page content plus metadata. -/
structure PDoc where
  page_content : String
  metadata : Metadata

/-- `document.metadata.get('filename', '')`. -/
def getFilename (md : Metadata) : String :=
  match md "filename" with
  | some (.str s) => s
  | _ => ""

/-- Core of `classify_document`, applied to the raw page content and
the filename extracted from metadata. -/
def classifyCD (pageContent : String) (filename : String) : DocumentClassification :=
  let content := (lowerStr pageContent).data
  let st := classifySourceType content filename
  let tc := classifyTeachingContext content
  let cl := classifyConfidenceLevel content
  let au := calculateAuthorityScore content
  let quality := assessContentQuality content
  let cc := calculateClassificationConfidence [st.2, tc.2, cl.2, au.2]
  ⟨st.1, tc.1, cl.1, au.1, cc, st.2 ++ tc.2 ++ cl.2 ++ au.2, quality⟩

/-- `DocumentClassifier.classify_document`. -/
def classifyDocument (d : PDoc) : DocumentClassification :=
  classifyCD d.page_content (getFilename d.metadata)

/-!
Embedding of `src/utils/ramit_retriever.py` (`RamitEnhancedRetriever`).
The vector store is an external collaborator: `_get_relevant_documents`
is embedded as a function of the candidate list returned by
`similarity_search`.
-/

/-- `_initialize_ramit_keywords` table. -/
def ramitKeywords : List (String × List String) := [
  ("first_sale", ["authentic selling", "sales call", "first client", "first sale",
    "closing", "objection handling", "sales process"]),
  ("customer_research", ["customer research", "mind reading", "customer interviews",
    "customer needs", "dream outcome", "biggest challenge"]),
  ("pricing", ["pricing", "rates", "charge", "money", "value", "investment"]),
  ("offers", ["offer", "irresistible", "positioning", "guarantee", "bonuses"]),
  ("frameworks", ["framework", "system", "process", "step by step", "methodology"]),
  ("contrarian", ["wrong", "myth", "conventional wisdom", "different", "opposite"]),
  ("testing", ["test", "validate", "experiment", "try", "iterate"])]

/-- `_classify_query`: every keyword category with a substring hit, in
table order. -/
def classifyQuery (query : String) : List String :=
  let ql := lowerStr query
  (ramitKeywords.filter (fun c => c.2.any (fun kw => containsStr kw ql))).map Prod.fst

/-- `_initialize_query_type_priorities` table. -/
def queryTypePriorities : List (String × List (String × ℚ)) := [
  ("foundational", [
    ("structured_lesson", 1.0), ("systematic_instruction", 1.0), ("definitive_framework", 1.0),
    ("live_qa", 0.4), ("situational_advice", 0.3), ("off_the_cuff", 0.2)]),
  ("specific_problems", [
    ("live_qa", 1.0), ("situational_advice", 1.0), ("troubleshooting", 1.0),
    ("structured_lesson", 0.6), ("systematic_instruction", 0.5), ("definitive_framework", 0.7)]),
  ("examples", [
    ("student_teardown", 1.0), ("case_study", 1.0), ("example_application", 1.0),
    ("behind_scenes", 0.8), ("business_makeover", 0.8), ("structured_lesson", 0.4)]),
  ("systematic", [
    ("structured_lesson", 1.0), ("systematic_instruction", 1.0), ("definitive_framework", 1.0),
    ("suggested_approach", 0.8), ("live_qa", 0.3), ("off_the_cuff", 0.2)])]

/-- `foundational_indicators` of `_classify_query_intent`. -/
def foundationalIndicators : List String :=
  ["how do i", "what is the", "explain", "framework for", "system for",
   "process for", "steps to", "guide to", "introduction to", "basics of"]

/-- `problem_indicators` of `_classify_query_intent`. -/
def problemIndicators : List String :=
  ["problem", "issue", "stuck", "struggling", "not working", "failing",
   "what should i do", "help with", "fix", "solve", "troubleshoot"]

/-- `example_indicators` of `_classify_query_intent`. -/
def exampleIndicators : List String :=
  ["example", "case study", "show me", "real world", "success story",
   "student story", "how did", "what happened", "results"]

/-- `systematic_indicators` of `_classify_query_intent`. -/
def systematicIndicators : List String :=
  ["systematic", "methodology", "complete", "comprehensive", "step by step",
   "exact process", "blueprint", "template", "checklist"]

/-- Does any indicator of the list occur in the lower-cased query? -/
def anyIndicator (inds : List String) (ql : String) : Bool :=
  inds.any (fun i => containsStr i ql)

/-- `_classify_query_intent`: first-match over the four indicator lists,
default `"foundational"`. -/
def classifyQueryIntent (query : String) : String :=
  let ql := lowerStr query
  if anyIndicator foundationalIndicators ql then "foundational"
  else if anyIndicator problemIndicators ql then "specific_problems"
  else if anyIndicator exampleIndicators ql then "examples"
  else if anyIndicator systematicIndicators ql then "systematic"
  else "foundational"

/-- The metadata fields `_calculate_ramit_relevance_score` reads; each
is optional, the score function applies the `metadata.get` default. -/
structure DocMeta where
  ramit_primary_type : Option String
  document_source_type : Option String
  teaching_context : Option String
  confidence_level : Option String
  authority_score : Option ℚ
  classification_confidence : Option ℚ
  framework_density : Option ℚ
  tactical_density : Option ℚ
  case_study_density : Option ℚ
  contrarian_density : Option ℚ
  ramit_frameworks : Option String
  ramit_contrarian_score : Option ℚ
  ramit_tactical_score : Option ℚ
  ramit_framework_score : Option ℚ
  ramit_case_study_score : Option ℚ
  ramit_signatures : Option String
deriving DecidableEq

/-- A retrieved chunk: page content plus metadata. -/
structure RDoc where
  page_content : String
  metadata : DocMeta
deriving DecidableEq

/-- The all-absent metadata record (every `metadata.get` falls back to
its default). -/
def mdNone : DocMeta :=
  ⟨none, none, none, none, none, none, none, none,
   none, none, none, none, none, none, none, none⟩

/-- `d.get(k, default)` on an association-list priority table. -/
def lookupQ (l : List (String × ℚ)) (k : String) (d : ℚ) : ℚ :=
  match l.lookup k with
  | some v => v
  | none => d

/-- `self.query_type_priorities.get(query_intent, {})`. -/
def lookupPriorities (intent : String) : List (String × ℚ) :=
  (queryTypePriorities.lookup intent).getD []

/-- One iteration of the query-category bonus loop (an `elif` chain on
the category name). -/
def categoryBonus (md : DocMeta) (c : String) : ℚ :=
  let fw := md.ramit_frameworks.getD ""
  if c = "first_sale" then
    (if ["authentic_selling"].any (fun f => containsStr f fw) then 0.5 else 0)
  else if c = "customer_research" then (if containsStr "customer_research" fw then 0.5 else 0)
  else if c = "offers" then (if containsStr "winning_offer" fw then 0.5 else 0)
  else if c = "contrarian" then md.contrarian_density.getD 0 * 0.5
  else if c = "frameworks" then md.framework_density.getD 0 * 0.5
  else if c = "testing" then
    (if md.tactical_density.getD 0 > 0.3 then md.tactical_density.getD 0 * 0.3 else 0)
  else 0

/-- The `ramit_signatures` list: split on `","` when the stored string
is truthy (non-empty), else empty. -/
def signatureList (md : DocMeta) : List String :=
  match md.ramit_signatures with
  | some s => if s ≠ "" then (splitOnChar ',' s.data).map String.mk else []
  | none => []

/-- `_calculate_ramit_relevance_score`. -/
def ramitRelevanceScore (md : DocMeta) (queryCategories : List String)
    (queryIntent : String) : ℚ :=
  let base := if md.ramit_primary_type.getD "general" ≠ "general" then (0.3 : ℚ) else 0
  let priorities := lookupPriorities queryIntent
  let sourcePriority := lookupQ priorities (md.document_source_type.getD "unknown") 0.5
  let contextPriority := lookupQ priorities (md.teaching_context.getD "unknown") 0.5
  let confidencePriority := lookupQ priorities (md.confidence_level.getD "unknown") 0.5
  let authority := md.authority_score.getD 0.5
  let classificationConfidence := md.classification_confidence.getD 0.5
  let catBoost := (queryCategories.map (categoryBonus md)).sum
  let legacy := md.ramit_contrarian_score.getD 0 * 0.15 + md.ramit_tactical_score.getD 0 * 0.15 +
    md.ramit_framework_score.getD 0 * 0.15 + md.ramit_case_study_score.getD 0 * 0.1
  let sigCount := ((signatureList md).filter (fun s => trimStr s ≠ "")).length
  let sigBoost := min ((sigCount : ℚ) * 0.1) 0.3
  base + sourcePriority * 0.4 + contextPriority * 0.3 + confidencePriority * 0.2 +
    authority * 0.3 + classificationConfidence * 0.1 + catBoost + legacy + sigBoost

/-- The sort relation of `scored_results.sort(key=lambda x: x[1],
reverse=True)`: `a` may come before `b` iff `a`'s score is at least
`b`'s.  A stable sort with this relation is exactly Python's stable
descending sort. -/
def scoreRel (a b : RDoc × ℚ) : Prop := b.2 ≤ a.2

instance : DecidableRel scoreRel := fun a b => inferInstanceAs (Decidable (b.2 ≤ a.2))

instance : IsTotal (RDoc × ℚ) scoreRel := ⟨fun a b => le_total b.2 a.2⟩

instance : IsTrans (RDoc × ℚ) scoreRel := ⟨fun _ _ _ h1 h2 => le_trans h2 h1⟩

/-- The scored candidate list built by `_get_relevant_documents`. -/
def scoredResults (queryCategories : List String) (queryIntent : String)
    (docs : List RDoc) : List (RDoc × ℚ) :=
  docs.map (fun d => (d, ramitRelevanceScore d.metadata queryCategories queryIntent))

/-- Rerank: score, stable-sort descending, truncate to `k` (the code
fixes `k = 5`; it is kept as a parameter). -/
def rerank (k : Nat) (queryCategories : List String) (queryIntent : String)
    (docs : List RDoc) : List RDoc :=
  (((scoredResults queryCategories queryIntent docs).insertionSort scoreRel).map Prod.fst).take k

/-- `_get_relevant_documents`, as a function of the candidate list the
vector store returned for the query (`k = 5` as in the code). -/
def getRelevantDocuments (query : String) (initialResults : List RDoc) : List RDoc :=
  rerank 5 (classifyQuery query) (classifyQueryIntent query) initialResults

/-!
Spec-side definitions used to compare code behaviour with the spec's
formulas, and helper lemmas.
-/

/-- The confidence step function as the spec states it (buckets
`0 → 0.1`, `< 5 → 0.3`, `< 10 → 0.6`, `< 20 → 0.8`, else `0.9`). -/
def confidenceStepFn (n : Nat) : ℚ :=
  if n = 0 then 0.1
  else if n < 5 then 0.3
  else if n < 10 then 0.6
  else if n < 20 then 0.8
  else 0.9

/-- The density formula of `_assess_content_quality` as a function of
the match count and the word count. -/
def densityScore (count wc : Nat) : ℚ :=
  if 0 < wc then min 1 ((count : ℚ) / (wc : ℚ) * 100 * 10) else 0

/-- The weight contributed by one signature to the score of content
type `t`: its configured weight when it matches and is of type `t`,
otherwise 0. -/
def sigWeightIf (content : List Char) (t : ContentType) (s : RamitSignature) : ℚ :=
  if substrB s.phrase.data content = true ∧ s.content_type = t then s.weight else 0

/-- Total signature-phase contribution to the score of content type
`t`: the sum of the weights of all matched signatures of that type. -/
def signatureTypeSum (content : List Char) (t : ContentType) : ℚ :=
  (signaturesTable.map (sigWeightIf content t)).sum

/-- The framework-score contribution of one framework table entry:
`matchCount * 0.2` when at least two of its keywords are present,
otherwise 0. -/
def frameworkContribution (content : List Char) (fw : String × List String) : ℚ :=
  if 2 ≤ frameworkKeywordCount content fw then (frameworkKeywordCount content fw : ℚ) * 0.2
  else 0

/-- Bounds of the weighted-average authority formula. -/
theorem authorityFormulaBounds (h m l : Nat) (hne : h + m + l ≠ 0) :
    0 ≤ ((h : ℚ) * 1.0 + (m : ℚ) * 0.6 + (l : ℚ) * 0.2) / ((h + m + l : Nat) : ℚ) ∧
    ((h : ℚ) * 1.0 + (m : ℚ) * 0.6 + (l : ℚ) * 0.2) / ((h + m + l : Nat) : ℚ) ≤ 1 := by
  have hpos : (0 : ℚ) < ((h + m + l : Nat) : ℚ) := by
    exact_mod_cast Nat.pos_of_ne_zero hne
  constructor
  · apply div_nonneg _ (le_of_lt hpos)
    positivity
  · rw [div_le_one hpos]
    push_cast
    nlinarith [Nat.cast_nonneg (α := ℚ) h, Nat.cast_nonneg (α := ℚ) m,
      Nat.cast_nonneg (α := ℚ) l]

end BaseRag

namespace BaseRag

attribute [local semireducible] Rat.ofScientific Rat.add Rat.mul Rat.sub Rat.inv

/-- A fold whose step adds `g b` to the quantity `f` adds the sum of
the `g`-values overall. -/
theorem foldl_score_decomp {β : Type} (f : Analysis → ℚ) (g : β → ℚ)
    (step : Analysis → β → Analysis) (hf : ∀ a b, f (step a b) = f a + g b) :
    ∀ (l : List β) (a : Analysis), f (l.foldl step a) = f a + (l.map g).sum := by
  intro l
  induction l with
  | nil => intro a; simp
  | cons b t ih =>
    intro a
    simp only [List.foldl_cons, List.map_cons, List.sum_cons, ih, hf]
    ring

/-- A fold whose step preserves the quantity `f` preserves it overall. -/
theorem foldl_preserve {β γ : Type} (f : Analysis → γ)
    (step : Analysis → β → Analysis) (hf : ∀ a b, f (step a b) = f a) :
    ∀ (l : List β) (a : Analysis), f (l.foldl step a) = f a := by
  intro l
  induction l with
  | nil => intro a; rfl
  | cons b t ih => intro a; simp only [List.foldl_cons, ih, hf]

/-- Membership in `insertIfAbsent`. -/
theorem mem_insertIfAbsent (l : List String) (y x : String) :
    x ∈ insertIfAbsent l y ↔ x = y ∨ x ∈ l := by
  simp only [insertIfAbsent]
  split_ifs with h
  · constructor
    · exact fun hx => Or.inr hx
    · rintro (rfl | hx)
      exacts [h, hx]
  · simp [List.mem_append, or_comm]

/-- Membership in the framework set accumulated by the
`_analyze_frameworks` fold. -/
theorem mem_foldl_frameworkStep (content : List Char) (x : String) :
    ∀ (l : List (String × List String)) (a : Analysis),
      (x ∈ (l.foldl (frameworkStep content) a).ramit_frameworks ↔
        x ∈ a.ramit_frameworks ∨
          ∃ fw ∈ l, fw.1 = x ∧ 2 ≤ frameworkKeywordCount content fw) := by
  intro l
  induction l with
  | nil => intro a; simp
  | cons fw t ih =>
    intro a
    simp only [List.foldl_cons, ih]
    by_cases h2 : 2 ≤ frameworkKeywordCount content fw
    · simp only [frameworkStep, if_pos h2, mem_insertIfAbsent]
      constructor
      · rintro ((rfl | hx) | hex)
        · exact Or.inr ⟨fw, by simp, rfl, h2⟩
        · exact Or.inl hx
        · obtain ⟨fw2, hmem, hname, hcnt⟩ := hex
          exact Or.inr ⟨fw2, by simp [hmem], hname, hcnt⟩
      · rintro (hx | hex)
        · exact Or.inl (Or.inr hx)
        · obtain ⟨fw2, hmem, hname, hcnt⟩ := hex
          rcases List.mem_cons.1 hmem with rfl | hmem2
          · exact Or.inl (Or.inl hname.symm)
          · exact Or.inr ⟨fw2, hmem2, hname, hcnt⟩
    · simp only [frameworkStep, if_neg h2]
      constructor
      · rintro (hx | hex)
        · exact Or.inl hx
        · obtain ⟨fw2, hmem, hname, hcnt⟩ := hex
          exact Or.inr ⟨fw2, by simp [hmem], hname, hcnt⟩
      · rintro (hx | hex)
        · exact Or.inl hx
        · obtain ⟨fw2, hmem, hname, hcnt⟩ := hex
          rcases List.mem_cons.1 hmem with rfl | hmem2
          · exact absurd hcnt h2
          · exact Or.inr ⟨fw2, hmem2, hname, hcnt⟩

/-- The framework fold adds exactly the per-entry contributions to the
framework score. -/
theorem analyzeFrameworks_score (content : List Char) (a : Analysis) :
    (analyzeFrameworks content a).framework_score =
      a.framework_score + (frameworksTable.map (frameworkContribution content)).sum := by
  refine foldl_score_decomp _ _ _ ?_ frameworksTable a
  intro a fw
  simp only [frameworkStep, frameworkContribution]
  split_ifs with h2
  · rfl
  · ring

/-- C9: for every chunk text, a framework table entry with exactly one
keyword present is not recorded as matched and its contribution to the
framework score is 0, while an entry with at least two distinct
keywords present is recorded and contributes `matchCount * 0.2`; the
framework-phase score increment is the sum of these contributions. -/
theorem c9_framework_match_threshold (content : List Char) (a : Analysis)
    (fw : String × List String) (hfw : fw ∈ frameworksTable) :
    ((analyzeFrameworks content a).framework_score =
      a.framework_score + (frameworksTable.map (frameworkContribution content)).sum) ∧
    (frameworkKeywordCount content fw = 1 →
      frameworkContribution content fw = 0 ∧
      (fw.1 ∈ (analyzeFrameworks content a).ramit_frameworks ↔
        fw.1 ∈ a.ramit_frameworks)) ∧
    (2 ≤ frameworkKeywordCount content fw →
      frameworkContribution content fw = (frameworkKeywordCount content fw : ℚ) * 0.2 ∧
      fw.1 ∈ (analyzeFrameworks content a).ramit_frameworks) := by
  have hnodup : (frameworksTable.map Prod.fst).Nodup := by decide
  refine ⟨analyzeFrameworks_score content a, ?_, ?_⟩
  · intro h1
    constructor
    · simp [frameworkContribution, h1]
    · rw [analyzeFrameworks, mem_foldl_frameworkStep]
      constructor
      · rintro (hx | ⟨fw2, hmem, hname, hcnt⟩)
        · exact hx
        · have : fw2 = fw := List.inj_on_of_nodup_map hnodup hmem hfw hname
          rw [this] at hcnt
          omega
      · exact Or.inl
  · intro h2
    refine ⟨by simp [frameworkContribution, h2], ?_⟩
    rw [analyzeFrameworks, mem_foldl_frameworkStep]
    exact Or.inr ⟨fw, hfw, rfl, h2⟩

/-- Witness for C9: a chunk containing two `customer_research` keywords
registers that framework. -/
theorem c9_framework_match_threshold_witness :
    frameworkContribution "customer research call about the biggest challenge".data
        ("customer_research", ["customer research call", "mind reading",
          "what keeps you up at night", "biggest challenge", "dream outcome",
          "customer interviews"]) =
      (frameworkKeywordCount "customer research call about the biggest challenge".data
        ("customer_research", ["customer research call", "mind reading",
          "what keeps you up at night", "biggest challenge", "dream outcome",
          "customer interviews"]) : ℚ) * 0.2 ∧
    "customer_research" ∈
      (analyzeFrameworks "customer research call about the biggest challenge".data
        initAnalysis).ramit_frameworks :=
  (c9_framework_match_threshold "customer research call about the biggest challenge".data
    initAnalysis
    ("customer_research", ["customer research call", "mind reading",
      "what keeps you up at night", "biggest challenge", "dream outcome",
      "customer interviews"]) (by decide)).2.2 (by decide)

/-- The signature fold adds exactly the matched weights of each type to
that type's score: `framework`. -/
theorem analyzeSignatures_framework_score (content : List Char) (a : Analysis) :
    (analyzeSignatures content a).framework_score =
      a.framework_score + signatureTypeSum content .framework := by
  refine foldl_score_decomp _ _ _ ?_ signaturesTable a
  intro a s
  rcases s with ⟨ph, ct, w⟩
  by_cases hm : substrB ph.data content = true <;> cases ct <;>
    simp [signatureStep, sigWeightIf, addScore, addTypeTag, hm]

/-- Signature fold additivity: `tactical`. -/
theorem analyzeSignatures_tactical_score (content : List Char) (a : Analysis) :
    (analyzeSignatures content a).tactical_score =
      a.tactical_score + signatureTypeSum content .tactical := by
  refine foldl_score_decomp _ _ _ ?_ signaturesTable a
  intro a s
  rcases s with ⟨ph, ct, w⟩
  by_cases hm : substrB ph.data content = true <;> cases ct <;>
    simp [signatureStep, sigWeightIf, addScore, addTypeTag, hm]

/-- Signature fold additivity: `contrarian`. -/
theorem analyzeSignatures_contrarian_score (content : List Char) (a : Analysis) :
    (analyzeSignatures content a).contrarian_score =
      a.contrarian_score + signatureTypeSum content .contrarian := by
  refine foldl_score_decomp _ _ _ ?_ signaturesTable a
  intro a s
  rcases s with ⟨ph, ct, w⟩
  by_cases hm : substrB ph.data content = true <;> cases ct <;>
    simp [signatureStep, sigWeightIf, addScore, addTypeTag, hm]

/-- Signature fold additivity: `case_study`. -/
theorem analyzeSignatures_case_study_score (content : List Char) (a : Analysis) :
    (analyzeSignatures content a).case_study_score =
      a.case_study_score + signatureTypeSum content .case_study := by
  refine foldl_score_decomp _ _ _ ?_ signaturesTable a
  intro a s
  rcases s with ⟨ph, ct, w⟩
  by_cases hm : substrB ph.data content = true <;> cases ct <;>
    simp [signatureStep, sigWeightIf, addScore, addTypeTag, hm]

/-- Signature fold additivity: `mindset`. -/
theorem analyzeSignatures_mindset_score (content : List Char) (a : Analysis) :
    (analyzeSignatures content a).mindset_score =
      a.mindset_score + signatureTypeSum content .mindset := by
  refine foldl_score_decomp _ _ _ ?_ signaturesTable a
  intro a s
  rcases s with ⟨ph, ct, w⟩
  by_cases hm : substrB ph.data content = true <;> cases ct <;>
    simp [signatureStep, sigWeightIf, addScore, addTypeTag, hm]

/-- Signature fold additivity: `testing`. -/
theorem analyzeSignatures_testing_score (content : List Char) (a : Analysis) :
    (analyzeSignatures content a).testing_score =
      a.testing_score + signatureTypeSum content .testing := by
  refine foldl_score_decomp _ _ _ ?_ signaturesTable a
  intro a s
  rcases s with ⟨ph, ct, w⟩
  by_cases hm : substrB ph.data content = true <;> cases ct <;>
    simp [signatureStep, sigWeightIf, addScore, addTypeTag, hm]

/-- Signature fold additivity: `numbers`. -/
theorem analyzeSignatures_numbers_score (content : List Char) (a : Analysis) :
    (analyzeSignatures content a).numbers_score =
      a.numbers_score + signatureTypeSum content .numbers := by
  refine foldl_score_decomp _ _ _ ?_ signaturesTable a
  intro a s
  rcases s with ⟨ph, ct, w⟩
  by_cases hm : substrB ph.data content = true <;> cases ct <;>
    simp [signatureStep, sigWeightIf, addScore, addTypeTag, hm]

/-- Signature fold additivity: `story`. -/
theorem analyzeSignatures_story_score (content : List Char) (a : Analysis) :
    (analyzeSignatures content a).story_score =
      a.story_score + signatureTypeSum content .story := by
  refine foldl_score_decomp _ _ _ ?_ signaturesTable a
  intro a s
  rcases s with ⟨ph, ct, w⟩
  by_cases hm : substrB ph.data content = true <;> cases ct <;>
    simp [signatureStep, sigWeightIf, addScore, addTypeTag, hm]

/-- The framework fold leaves every score other than the framework
score unchanged. -/
theorem analyzeFrameworks_other_scores (content : List Char) (a : Analysis) :
    (analyzeFrameworks content a).contrarian_score = a.contrarian_score ∧
    (analyzeFrameworks content a).tactical_score = a.tactical_score ∧
    (analyzeFrameworks content a).case_study_score = a.case_study_score ∧
    (analyzeFrameworks content a).mindset_score = a.mindset_score ∧
    (analyzeFrameworks content a).testing_score = a.testing_score ∧
    (analyzeFrameworks content a).numbers_score = a.numbers_score ∧
    (analyzeFrameworks content a).story_score = a.story_score := by
  refine ⟨?_, ?_, ?_, ?_, ?_, ?_, ?_⟩ <;>
    exact foldl_preserve _ (frameworkStep content)
      (fun a fw => by simp only [frameworkStep]; split_ifs <;> rfl) frameworksTable a

/-- `_analyze_contrarian_content` overwrites the contrarian score with
`indicatorCount * 0.3` and leaves the other scores unchanged. -/
theorem analyzeContrarian_fields (content : List Char) (a : Analysis) :
    (analyzeContrarianContent content a).contrarian_score =
      (contrarianIndicatorCount content : ℚ) * 0.3 ∧
    (analyzeContrarianContent content a).tactical_score = a.tactical_score ∧
    (analyzeContrarianContent content a).framework_score = a.framework_score ∧
    (analyzeContrarianContent content a).case_study_score = a.case_study_score ∧
    (analyzeContrarianContent content a).mindset_score = a.mindset_score ∧
    (analyzeContrarianContent content a).testing_score = a.testing_score ∧
    (analyzeContrarianContent content a).numbers_score = a.numbers_score ∧
    (analyzeContrarianContent content a).story_score = a.story_score := by
  refine ⟨?_, ?_, ?_, ?_, ?_, ?_, ?_, ?_⟩ <;>
    · simp only [analyzeContrarianContent, addTypeTag]
      split_ifs <;> rfl

/-- `_analyze_content_structure` adds its documented structural bonuses
and leaves the framework, mindset and contrarian scores unchanged. -/
theorem analyzeStructure_fields (content : List Char) (a : Analysis) :
    (analyzeContentStructure content a).tactical_score =
      a.tactical_score + (if stepHit content then 0.5 else 0) ∧
    (analyzeContentStructure content a).case_study_score =
      a.case_study_score + (if storyHit content then 0.5 else 0) ∧
    (analyzeContentStructure content a).story_score =
      a.story_score + (if storyHit content then 0.5 else 0) ∧
    (analyzeContentStructure content a).numbers_score =
      a.numbers_score +
        (if 0 < numberPatternCount content then (numberPatternCount content : ℚ) * 0.3 else 0) ∧
    (analyzeContentStructure content a).testing_score =
      a.testing_score +
        (if 1 < testingPatternCount content then (testingPatternCount content : ℚ) * 0.2 else 0) ∧
    (analyzeContentStructure content a).framework_score = a.framework_score ∧
    (analyzeContentStructure content a).mindset_score = a.mindset_score ∧
    (analyzeContentStructure content a).contrarian_score = a.contrarian_score := by
  refine ⟨?_, ?_, ?_, ?_, ?_, ?_, ?_, ?_⟩ <;>
    · simp only [analyzeContentStructure, addTypeTag]
      split_ifs <;> simp

/-- C5 (amended): every per-type score except the contrarian one
accumulates additively — the sum of the matched signature weights of
its type plus the documented framework-phase and structure-phase
contributions; the contrarian score, however, is overwritten by
`_analyze_contrarian_content` with `indicatorCount * 0.3`, discarding
any contrarian signature weights accumulated earlier. -/
theorem c5_signature_weight_additivity (content : List Char) :
    (runAnalysis content).framework_score =
      signatureTypeSum content .framework +
        (frameworksTable.map (frameworkContribution content)).sum ∧
    (runAnalysis content).tactical_score =
      signatureTypeSum content .tactical + (if stepHit content then 0.5 else 0) ∧
    (runAnalysis content).case_study_score =
      signatureTypeSum content .case_study + (if storyHit content then 0.5 else 0) ∧
    (runAnalysis content).story_score =
      signatureTypeSum content .story + (if storyHit content then 0.5 else 0) ∧
    (runAnalysis content).mindset_score = signatureTypeSum content .mindset ∧
    (runAnalysis content).numbers_score =
      signatureTypeSum content .numbers +
        (if 0 < numberPatternCount content then (numberPatternCount content : ℚ) * 0.3 else 0) ∧
    (runAnalysis content).testing_score =
      signatureTypeSum content .testing +
        (if 1 < testingPatternCount content then (testingPatternCount content : ℚ) * 0.2 else 0) ∧
    (runAnalysis content).contrarian_score = (contrarianIndicatorCount content : ℚ) * 0.3 := by
  have hstruct := analyzeStructure_fields content
    (analyzeContrarianContent content
      (analyzeFrameworks content (analyzeSignatures content initAnalysis)))
  have hcon := analyzeContrarian_fields content
    (analyzeFrameworks content (analyzeSignatures content initAnalysis))
  have hfwk := analyzeFrameworks_other_scores content (analyzeSignatures content initAnalysis)
  have hfws := analyzeFrameworks_score content (analyzeSignatures content initAnalysis)
  refine ⟨?_, ?_, ?_, ?_, ?_, ?_, ?_, ?_⟩
  · rw [show runAnalysis content = analyzeContentStructure content
      (analyzeContrarianContent content
        (analyzeFrameworks content (analyzeSignatures content initAnalysis))) from rfl,
      hstruct.2.2.2.2.2.1, hcon.2.2.1, hfws,
      analyzeSignatures_framework_score content initAnalysis]
    show (0 : ℚ) + _ + _ = _
    ring
  · rw [show runAnalysis content = analyzeContentStructure content
      (analyzeContrarianContent content
        (analyzeFrameworks content (analyzeSignatures content initAnalysis))) from rfl,
      hstruct.1, hcon.2.1, hfwk.2.1, analyzeSignatures_tactical_score content initAnalysis]
    show (0 : ℚ) + _ + _ = _
    ring
  · rw [show runAnalysis content = analyzeContentStructure content
      (analyzeContrarianContent content
        (analyzeFrameworks content (analyzeSignatures content initAnalysis))) from rfl,
      hstruct.2.1, hcon.2.2.2.1, hfwk.2.2.1,
      analyzeSignatures_case_study_score content initAnalysis]
    show (0 : ℚ) + _ + _ = _
    ring
  · rw [show runAnalysis content = analyzeContentStructure content
      (analyzeContrarianContent content
        (analyzeFrameworks content (analyzeSignatures content initAnalysis))) from rfl,
      hstruct.2.2.1, hcon.2.2.2.2.2.2.2, hfwk.2.2.2.2.2.2,
      analyzeSignatures_story_score content initAnalysis]
    show (0 : ℚ) + _ + _ = _
    ring
  · rw [show runAnalysis content = analyzeContentStructure content
      (analyzeContrarianContent content
        (analyzeFrameworks content (analyzeSignatures content initAnalysis))) from rfl,
      hstruct.2.2.2.2.2.2.1, hcon.2.2.2.2.1, hfwk.2.2.2.1,
      analyzeSignatures_mindset_score content initAnalysis]
    show (0 : ℚ) + _ = _
    ring
  · rw [show runAnalysis content = analyzeContentStructure content
      (analyzeContrarianContent content
        (analyzeFrameworks content (analyzeSignatures content initAnalysis))) from rfl,
      hstruct.2.2.2.1, hcon.2.2.2.2.2.2.1, hfwk.2.2.2.2.2.1,
      analyzeSignatures_numbers_score content initAnalysis]
    show (0 : ℚ) + _ + _ = _
    ring
  · rw [show runAnalysis content = analyzeContentStructure content
      (analyzeContrarianContent content
        (analyzeFrameworks content (analyzeSignatures content initAnalysis))) from rfl,
      hstruct.2.2.2.2.1, hcon.2.2.2.2.2.1, hfwk.2.2.2.2.1,
      analyzeSignatures_testing_score content initAnalysis]
    show (0 : ℚ) + _ + _ = _
    ring
  · rw [show runAnalysis content = analyzeContentStructure content
      (analyzeContrarianContent content
        (analyzeFrameworks content (analyzeSignatures content initAnalysis))) from rfl,
      hstruct.2.2.2.2.2.2.2, hcon.1]

set_option maxRecDepth 4000 in
/-- C5 counterexample: the chunk text "you don't need to be an expert"
matches the contrarian signature of that phrase (weight 0.8), yet the
final contrarian score is 0, because `_analyze_contrarian_content`
assigns (rather than adds to) the contrarian score from the indicator
count, which is 0 here — so the matched signature's weight is not added
to its content type's score as the claim states. -/
theorem c5_signature_weight_additivity_counterexample :
    signatureTypeSum "you don\x27t need to be an expert".data .contrarian = 0.8 ∧
    "you don\x27t need to be an expert" ∈
      (runAnalysis "you don\x27t need to be an expert".data).ramit_signatures ∧
    (runAnalysis "you don\x27t need to be an expert".data).contrarian_score = 0 := by
  refine ⟨by decide, by decide, by decide⟩

/-- Dropping the scores recovers the candidate list. -/
theorem map_fst_scoredResults (cats : List String) (intent : String) (docs : List RDoc) :
    (scoredResults cats intent docs).map Prod.fst = docs := by
  simp only [scoredResults, List.map_map]
  have h : (Prod.fst ∘ fun d : RDoc =>
      (d, ramitRelevanceScore d.metadata cats intent)) = id := rfl
  rw [h, List.map_id]

/-- Every pair of the scored list carries its document's score. -/
theorem snd_of_mem_scoredResults (cats : List String) (intent : String) (docs : List RDoc)
    (p : RDoc × ℚ) (hp : p ∈ scoredResults cats intent docs) :
    p.2 = ramitRelevanceScore p.1.metadata cats intent := by
  simp only [scoredResults, List.mem_map] at hp
  obtain ⟨d, _, rfl⟩ := hp
  rfl

/-- Filtering on a fixed score commutes with `orderedInsert`: the
passed-over elements all have a strictly larger score. -/
theorem filter_orderedInsert (x : RDoc × ℚ) (l : List (RDoc × ℚ)) (s : ℚ) :
    (l.orderedInsert scoreRel x).filter (fun p => decide (p.2 = s)) =
      if x.2 = s then x :: l.filter (fun p => decide (p.2 = s))
      else l.filter (fun p => decide (p.2 = s)) := by
  induction l with
  | nil =>
    by_cases hx : x.2 = s <;> simp [List.orderedInsert, hx]
  | cons y t ih =>
    by_cases hr : scoreRel x y
    · rw [List.orderedInsert, if_pos hr]
      by_cases hx : x.2 = s <;> by_cases hy : y.2 = s <;>
        simp [List.filter_cons, hx, hy]
    · rw [List.orderedInsert, if_neg hr]
      have hxy : ¬(y.2 ≤ x.2) := hr
      by_cases hx : x.2 = s
      · have hy : ¬(y.2 = s) := fun e => hxy (by rw [e, hx])
        simp [List.filter_cons, hy, ih, hx]
      · by_cases hy : y.2 = s <;> simp [List.filter_cons, hy, ih, hx]

/-- Stability of the stable descending sort: the elements of any fixed
score keep their original relative order. -/
theorem filter_insertionSort (l : List (RDoc × ℚ)) (s : ℚ) :
    (l.insertionSort scoreRel).filter (fun p => decide (p.2 = s)) =
      l.filter (fun p => decide (p.2 = s)) := by
  induction l with
  | nil => rfl
  | cons a t ih =>
    simp only [List.insertionSort, filter_orderedInsert, ih]
    by_cases ha : a.2 = s <;> simp [List.filter_cons, ha]

/-- C2: rerank returns `min(desiredCount, len(candidates))` chunks, all
drawn from the candidate list (a sub-permutation: nothing fabricated,
nothing duplicated beyond input multiplicity, no-duplicate inputs stay
duplicate-free); when the desired count covers the candidates, every
candidate appears exactly once; and the output is the `k`-truncation of
the stable descending sort of the scored candidates (sortedness and
tie-stability stated about that sort). -/
theorem c2_rerank_preserves_candidate_set (k : ℕ) (cats : List String) (intent : String)
    (docs : List RDoc) :
    (rerank k cats intent docs).length = min k docs.length ∧
    List.Subperm (rerank k cats intent docs) docs ∧
    (docs.length ≤ k → List.Perm (rerank k cats intent docs) docs) ∧
    (docs.Nodup → (rerank k cats intent docs).Nodup) ∧
    rerank k cats intent docs =
      (((scoredResults cats intent docs).insertionSort scoreRel).map Prod.fst).take k ∧
    ((scoredResults cats intent docs).insertionSort scoreRel).Sorted scoreRel ∧
    (∀ s : ℚ, ((scoredResults cats intent docs).insertionSort scoreRel).filter
        (fun p => decide (p.2 = s)) =
      (scoredResults cats intent docs).filter (fun p => decide (p.2 = s))) := by
  have hperm : List.Perm ((scoredResults cats intent docs).insertionSort scoreRel)
      (scoredResults cats intent docs) := List.perm_insertionSort _ _
  have hpermfst : List.Perm
      (((scoredResults cats intent docs).insertionSort scoreRel).map Prod.fst) docs := by
    have := hperm.map Prod.fst
    rwa [map_fst_scoredResults] at this
  have hsub : List.Subperm (rerank k cats intent docs) docs := by
    refine List.Subperm.trans ?_ hpermfst.subperm
    exact (List.take_sublist _ _).subperm
  refine ⟨?_, hsub, ?_, ?_, rfl, List.sorted_insertionSort _ _, filter_insertionSort _⟩
  · rw [rerank, List.length_take, hpermfst.length_eq]
  · intro hk
    have hlen : (((scoredResults cats intent docs).insertionSort scoreRel).map
        Prod.fst).length ≤ k := by
      rw [hpermfst.length_eq]; exact hk
    rw [rerank, List.take_of_length_le hlen]
    exact hpermfst
  · intro hnd
    obtain ⟨l', hl'perm, hl'sub⟩ := hsub
    exact hl'perm.nodup_iff.mp (hl'sub.nodup hnd)

/-- Witness for C2 at a concrete candidate list. -/
theorem c2_rerank_preserves_candidate_set_witness :
    (rerank 5 [] "specific_problems"
      [⟨"b", { mdNone with document_source_type := some "structured_lesson" }⟩,
       ⟨"a", { mdNone with document_source_type := some "live_qa" }⟩]).Perm
      [⟨"b", { mdNone with document_source_type := some "structured_lesson" }⟩,
       ⟨"a", { mdNone with document_source_type := some "live_qa" }⟩] ∧
    (rerank 5 [] "specific_problems"
      [⟨"b", { mdNone with document_source_type := some "structured_lesson" }⟩,
       ⟨"a", { mdNone with document_source_type := some "live_qa" }⟩]).Nodup :=
  ⟨(c2_rerank_preserves_candidate_set 5 [] "specific_problems" _).2.2.1 (by norm_num),
   (c2_rerank_preserves_candidate_set 5 [] "specific_problems" _).2.2.2.1 (by decide)⟩

/-- The relevance score of two chunks that differ only in their source
type differs by `0.4` times the difference of the looked-up source
priorities. -/
theorem score_source_priority_diff (md : DocMeta) (st1 st2 : Option String)
    (cats : List String) (intent : String) :
    ramitRelevanceScore { md with document_source_type := st1 } cats intent -
      ramitRelevanceScore { md with document_source_type := st2 } cats intent =
      (lookupQ (lookupPriorities intent) (st1.getD "unknown") 0.5 -
       lookupQ (lookupPriorities intent) (st2.getD "unknown") 0.5) * 0.4 := by
  have hcat : ∀ st : Option String,
      categoryBonus { md with document_source_type := st } = categoryBonus md :=
    fun _ => rfl
  have hsig : ∀ st : Option String,
      signatureList { md with document_source_type := st } = signatureList md :=
    fun _ => rfl
  simp only [ramitRelevanceScore, hcat, hsig]
  ring

/-- Core ordering fact: if a candidate scores strictly higher than
another, every occurrence of it in the reranked output precedes every
occurrence of the other, and it is present whenever the other is. -/
theorem rerank_strict_order (k : ℕ) (cats : List String) (intent : String)
    (docs : List RDoc) (d1 d2 : RDoc) (hd1 : d1 ∈ docs)
    (hs : ramitRelevanceScore d2.metadata cats intent <
          ramitRelevanceScore d1.metadata cats intent) :
    (∀ (i j : ℕ) (hi : i < (rerank k cats intent docs).length)
        (hj : j < (rerank k cats intent docs).length),
      (rerank k cats intent docs)[i] = d1 → (rerank k cats intent docs)[j] = d2 →
      i < j) ∧
    (d2 ∈ rerank k cats intent docs → d1 ∈ rerank k cats intent docs) := by
  have hperm : List.Perm ((scoredResults cats intent docs).insertionSort scoreRel)
      (scoredResults cats intent docs) := List.perm_insertionSort _ _
  have hscoreS : ∀ p ∈ (scoredResults cats intent docs).insertionSort scoreRel,
      p.2 = ramitRelevanceScore p.1.metadata cats intent := fun p hp =>
    snd_of_mem_scoredResults cats intent docs p (hperm.mem_iff.mp hp)
  have hsorted : ((scoredResults cats intent docs).insertionSort scoreRel).Sorted scoreRel :=
    List.sorted_insertionSort _ _
  have hne : d1 ≠ d2 := fun e => absurd hs (by rw [e]; exact lt_irrefl _)
  have key : ∀ (i j : ℕ)
      (hi : i < ((scoredResults cats intent docs).insertionSort scoreRel).length)
      (hj : j < ((scoredResults cats intent docs).insertionSort scoreRel).length),
      (((scoredResults cats intent docs).insertionSort scoreRel)[i]).1 = d1 →
      (((scoredResults cats intent docs).insertionSort scoreRel)[j]).1 = d2 → i < j := by
    intro i j hi hj hvi hvj
    by_contra hle
    push_neg at hle
    have e1 : (((scoredResults cats intent docs).insertionSort scoreRel)[i]).2 =
        ramitRelevanceScore d1.metadata cats intent := by
      rw [hscoreS _ (List.getElem_mem _), hvi]
    have e2 : (((scoredResults cats intent docs).insertionSort scoreRel)[j]).2 =
        ramitRelevanceScore d2.metadata cats intent := by
      rw [hscoreS _ (List.getElem_mem _), hvj]
    rcases Nat.lt_or_ge j i with hlt | hge
    · have hrel := List.Sorted.rel_get_of_lt hsorted
        (a := ⟨j, hj⟩) (b := ⟨i, hi⟩) (Fin.mk_lt_mk.mpr hlt)
      have hle2 : ramitRelevanceScore d1.metadata cats intent ≤
          ramitRelevanceScore d2.metadata cats intent := by
        have h' : (((scoredResults cats intent docs).insertionSort scoreRel)[i]).2 ≤
            (((scoredResults cats intent docs).insertionSort scoreRel)[j]).2 := by
          simpa [scoreRel, List.get_eq_getElem] using hrel
        rw [e1, e2] at h'
        exact h'
      exact absurd hs (not_lt.mpr hle2)
    · have hij : i = j := Nat.le_antisymm hge hle
      subst hij
      exact hne (by rw [← hvi, ← hvj])
  constructor
  · intro i j hi hj hvi hvj
    simp only [rerank] at hvi hvj hi hj
    rw [List.length_take, List.length_map] at hi hj
    have hiS : i < ((scoredResults cats intent docs).insertionSort scoreRel).length :=
      lt_of_lt_of_le hi (min_le_right _ _)
    have hjS : j < ((scoredResults cats intent docs).insertionSort scoreRel).length :=
      lt_of_lt_of_le hj (min_le_right _ _)
    rw [List.getElem_take, List.getElem_map] at hvi hvj
    exact key i j hiS hjS hvi hvj
  · intro hmem
    simp only [rerank] at hmem ⊢
    obtain ⟨j, hj, hvj⟩ := List.mem_iff_getElem.1 hmem
    have hjlen := hj
    rw [List.length_take, List.length_map] at hjlen
    have hjS : j < ((scoredResults cats intent docs).insertionSort scoreRel).length :=
      lt_of_lt_of_le hjlen (min_le_right _ _)
    have hjk : j < k := lt_of_lt_of_le hjlen (min_le_left _ _)
    rw [List.getElem_take, List.getElem_map] at hvj
    have hd1L : (d1, ramitRelevanceScore d1.metadata cats intent) ∈
        scoredResults cats intent docs :=
      List.mem_map.2 ⟨d1, hd1, rfl⟩
    have hd1S : (d1, ramitRelevanceScore d1.metadata cats intent) ∈
        (scoredResults cats intent docs).insertionSort scoreRel :=
      hperm.mem_iff.mpr hd1L
    obtain ⟨i0, hi0, hv0⟩ := List.mem_iff_getElem.1 hd1S
    have hv0' : (((scoredResults cats intent docs).insertionSort scoreRel)[i0]).1 = d1 := by
      rw [hv0]
    have hij : i0 < j := key i0 j hi0 hjS hv0' hvj
    have hi0len : i0 < ((((scoredResults cats intent docs).insertionSort
        scoreRel).map Prod.fst).take k).length := by
      rw [List.length_take, List.length_map]
      exact lt_min (lt_trans hij hjk) hi0
    refine List.mem_iff_getElem.2 ⟨i0, hi0len, ?_⟩
    rw [List.getElem_take, List.getElem_map, hv0']

/-- C3: for two candidate chunks whose metadata are identical except
for the document source type, if the intent's priority table (with its
0.5 default) gives the first chunk's source type a strictly higher
priority, reranking places every occurrence of the first chunk strictly
before every occurrence of the second in the returned order, and the
first chunk is present whenever the second is. -/
theorem c3_intent_priority_directional (k : ℕ) (cats : List String) (intent : String)
    (docs : List RDoc) (t1 t2 : String) (md : DocMeta) (st1 st2 : Option String)
    (h1 : (⟨t1, { md with document_source_type := st1 }⟩ : RDoc) ∈ docs)
    (hp : lookupQ (lookupPriorities intent) (st2.getD "unknown") 0.5 <
          lookupQ (lookupPriorities intent) (st1.getD "unknown") 0.5) :
    (∀ (i j : ℕ) (hi : i < (rerank k cats intent docs).length)
        (hj : j < (rerank k cats intent docs).length),
      (rerank k cats intent docs)[i] = (⟨t1, { md with document_source_type := st1 }⟩ : RDoc) →
      (rerank k cats intent docs)[j] = (⟨t2, { md with document_source_type := st2 }⟩ : RDoc) →
      i < j) ∧
    ((⟨t2, { md with document_source_type := st2 }⟩ : RDoc) ∈ rerank k cats intent docs →
      (⟨t1, { md with document_source_type := st1 }⟩ : RDoc) ∈ rerank k cats intent docs) := by
  have hdiff := score_source_priority_diff md st1 st2 cats intent
  have hpos : (0 : ℚ) < (lookupQ (lookupPriorities intent) (st1.getD "unknown") 0.5 -
      lookupQ (lookupPriorities intent) (st2.getD "unknown") 0.5) * 0.4 :=
    mul_pos (sub_pos.2 hp) (by norm_num)
  have hs : ramitRelevanceScore
        ((⟨t2, { md with document_source_type := st2 }⟩ : RDoc)).metadata cats intent <
      ramitRelevanceScore
        ((⟨t1, { md with document_source_type := st1 }⟩ : RDoc)).metadata cats intent := by
    show ramitRelevanceScore { md with document_source_type := st2 } cats intent <
      ramitRelevanceScore { md with document_source_type := st1 } cats intent
    linarith
  exact rerank_strict_order k cats intent docs _ _ h1 hs

/-- Witness for C3: with intent "specific_problems", a live-Q&A chunk
(priority 1.0) is placed and kept ahead of an otherwise-identical
structured-lesson chunk (priority 0.6). -/
theorem c3_intent_priority_directional_witness :
    (⟨"a", { mdNone with document_source_type := some "live_qa" }⟩ : RDoc) ∈
      rerank 5 [] "specific_problems"
        [⟨"b", { mdNone with document_source_type := some "structured_lesson" }⟩,
         ⟨"a", { mdNone with document_source_type := some "live_qa" }⟩] :=
  (c3_intent_priority_directional 5 [] "specific_problems"
    [⟨"b", { mdNone with document_source_type := some "structured_lesson" }⟩,
     ⟨"a", { mdNone with document_source_type := some "live_qa" }⟩]
    "a" "b" mdNone (some "live_qa") (some "structured_lesson")
    (by decide) (by decide)).2 (by decide)

/-- C4: `_calculate_classification_confidence` equals the documented
step function of the total evidence count, the step function is
monotone (non-decreasing), and it only takes the five bucket values
`{0.1, 0.3, 0.6, 0.8, 0.9}`. -/
theorem c4_confidence_step_function :
    (∀ ls : List (List String),
      calculateClassificationConfidence ls = confidenceStepFn ((ls.map List.length).sum)) ∧
    Monotone confidenceStepFn ∧
    (∀ n, confidenceStepFn n ∈ ({0.1, 0.3, 0.6, 0.8, 0.9} : Set ℚ)) := by
  refine ⟨fun ls => rfl, ?_, ?_⟩
  · intro a b hab
    simp only [confidenceStepFn]
    split_ifs <;> first | (exfalso; omega) | norm_num
  · intro n
    simp only [confidenceStepFn]
    split_ifs <;> simp

/-- C7: `_calculate_authority_score` returns 0.5 when no authority
indicator matches, the weighted average
`(high*1.0 + medium*0.6 + low*0.2) / total` otherwise, and the result
always lies in `[0, 1]`. -/
theorem c7_authority_score (content : List Char) :
    (calculateAuthorityScore content).1 =
      (if tierCount highAuthorityPatterns content + tierCount mediumAuthorityPatterns content +
          tierCount lowAuthorityPatterns content = 0 then 0.5
       else ((tierCount highAuthorityPatterns content : ℚ) * 1.0 +
             (tierCount mediumAuthorityPatterns content : ℚ) * 0.6 +
             (tierCount lowAuthorityPatterns content : ℚ) * 0.2) /
            ((tierCount highAuthorityPatterns content + tierCount mediumAuthorityPatterns content +
              tierCount lowAuthorityPatterns content : Nat) : ℚ)) ∧
    0 ≤ (calculateAuthorityScore content).1 ∧ (calculateAuthorityScore content).1 ≤ 1 := by
  have he : (calculateAuthorityScore content).1 =
      (if tierCount highAuthorityPatterns content + tierCount mediumAuthorityPatterns content +
          tierCount lowAuthorityPatterns content = 0 then 0.5
       else ((tierCount highAuthorityPatterns content : ℚ) * 1.0 +
             (tierCount mediumAuthorityPatterns content : ℚ) * 0.6 +
             (tierCount lowAuthorityPatterns content : ℚ) * 0.2) /
            ((tierCount highAuthorityPatterns content + tierCount mediumAuthorityPatterns content +
              tierCount lowAuthorityPatterns content : Nat) : ℚ)) := by
    simp only [calculateAuthorityScore]
    split_ifs <;> rfl
  refine ⟨he, ?_, ?_⟩ <;> rw [he]
  · split_ifs with h0
    · norm_num
    · exact (authorityFormulaBounds _ _ _ h0).1
  · split_ifs with h0
    · norm_num
    · exact (authorityFormulaBounds _ _ _ h0).2

/-- C8: every content-quality density produced by
`_assess_content_quality` equals `min(1, count/wordCount*100*10)` (or 0
for an empty document); for a fixed positive word count the density is
monotone in the match count, and it never exceeds 1. -/
theorem c8_density_monotone_saturating :
    (∀ content entry, entry ∈ assessContentQuality content →
      ∃ pats, (entry.1, pats) ∈ contentQualityPatterns ∧
        entry.2 = densityScore ((pats.map (fun p => countMatches p content)).sum)
          (wordCount content)) ∧
    (∀ wc c1 c2 : Nat, 0 < wc → c1 ≤ c2 → densityScore c1 wc ≤ densityScore c2 wc) ∧
    (∀ c wc : Nat, densityScore c wc ≤ 1) := by
  refine ⟨?_, ?_, ?_⟩
  · intro content entry hmem
    simp only [assessContentQuality, List.mem_map] at hmem
    obtain ⟨e, he, rfl⟩ := hmem
    exact ⟨e.2, he, rfl⟩
  · intro wc c1 c2 hwc hc
    simp only [densityScore, if_pos hwc]
    refine min_le_min le_rfl ?_
    have hcast : (c1 : ℚ) ≤ (c2 : ℚ) := by exact_mod_cast hc
    gcongr
  · intro c wc
    simp only [densityScore]
    split_ifs
    · exact min_le_left _ _
    · norm_num

/-- Witness for C8 at concrete inputs. -/
theorem c8_density_monotone_saturating_witness :
    (∃ pats, ("framework_density", pats) ∈ contentQualityPatterns ∧
      (0 : ℚ) = densityScore ((pats.map (fun p => countMatches p [])).sum) (wordCount [])) ∧
    densityScore 1 10 ≤ densityScore 3 10 := by
  constructor
  · exact c8_density_monotone_saturating.1 [] ("framework_density", 0) (by decide)
  · exact c8_density_monotone_saturating.2.1 10 1 3 (by norm_num) (by norm_num)

/-- C10: `analyze_content` preserves every metadata key except the
twelve expert-specific keys it sets; those twelve are overwritten (their
result does not depend on the input mapping, and is always present).
The Python code copies the dict before updating, so the caller's
mapping is untouched; the embedding is pure, making that automatic. -/
theorem c10_analyze_content_frame (content : String) (md md2 : Metadata) (k : String) :
    (k ∉ analyzerKeys → analyzeContent content md k = md k) ∧
    (k ∈ analyzerKeys →
      analyzeContent content md k = analyzeContent content md2 k ∧
      (analyzeContent content md k).isSome = true) := by
  constructor
  · intro hk
    simp only [analyzerKeys, List.mem_cons, List.not_mem_nil, or_false, not_or] at hk
    obtain ⟨h1, h2, h3, h4, h5, h6, h7, h8, h9, h10, h11, h12⟩ := hk
    simp only [analyzeContent, if_neg h1, if_neg h2, if_neg h3, if_neg h4, if_neg h5,
      if_neg h6, if_neg h7, if_neg h8, if_neg h9, if_neg h10, if_neg h11, if_neg h12]
  · intro hk
    simp only [analyzerKeys, List.mem_cons, List.not_mem_nil, or_false] at hk
    rcases hk with rfl | rfl | rfl | rfl | rfl | rfl | rfl | rfl | rfl | rfl | rfl | rfl <;>
      exact ⟨rfl, rfl⟩

/-- Witness for C10 at a concrete key and metadata mapping. -/
theorem c10_analyze_content_frame_witness :
    (analyzeContent "abc" (fun k => if k = "author" then some (.str "x") else none) "author" =
      (fun k => if k = "author" then some (MValue.str "x") else none) "author") ∧
    (analyzeContent "abc" (fun _ => none) "ramit_primary_type" =
      analyzeContent "abc" (fun k => if k = "author" then some (.str "x") else none)
        "ramit_primary_type") := by
  constructor
  · exact (c10_analyze_content_frame "abc"
      (fun k => if k = "author" then some (.str "x") else none)
      (fun _ => none) "author").1 (by decide)
  · exact ((c10_analyze_content_frame "abc" (fun _ => none)
      (fun k => if k = "author" then some (.str "x") else none)
      "ramit_primary_type").2 (by decide)).1

/-- C6: `_classify_query_intent` lower-cases the query and tests the
four indicator lists in the order foundational, specific-problems,
examples, systematic; the first list with a substring hit wins and
"foundational" is the default; the concrete query
"I'm struggling with pricing, what should I do?" classifies as
"specific_problems" with topic category "pricing". -/
theorem c6_query_intent_first_match :
    (∀ q : String, anyIndicator foundationalIndicators (lowerStr q) = true →
      classifyQueryIntent q = "foundational") ∧
    (∀ q : String, anyIndicator foundationalIndicators (lowerStr q) = false →
      anyIndicator problemIndicators (lowerStr q) = true →
      classifyQueryIntent q = "specific_problems") ∧
    (∀ q : String, anyIndicator foundationalIndicators (lowerStr q) = false →
      anyIndicator problemIndicators (lowerStr q) = false →
      anyIndicator exampleIndicators (lowerStr q) = true →
      classifyQueryIntent q = "examples") ∧
    (∀ q : String, anyIndicator foundationalIndicators (lowerStr q) = false →
      anyIndicator problemIndicators (lowerStr q) = false →
      anyIndicator exampleIndicators (lowerStr q) = false →
      anyIndicator systematicIndicators (lowerStr q) = true →
      classifyQueryIntent q = "systematic") ∧
    (∀ q : String, anyIndicator foundationalIndicators (lowerStr q) = false →
      anyIndicator problemIndicators (lowerStr q) = false →
      anyIndicator exampleIndicators (lowerStr q) = false →
      anyIndicator systematicIndicators (lowerStr q) = false →
      classifyQueryIntent q = "foundational") ∧
    classifyQueryIntent "I\x27m struggling with pricing, what should I do?" =
      "specific_problems" ∧
    "pricing" ∈ classifyQuery "I\x27m struggling with pricing, what should I do?" := by
  refine ⟨?_, ?_, ?_, ?_, ?_, by decide, by decide⟩ <;>
    · intro q
      intros
      simp_all [classifyQueryIntent]

/-- Witness for C6 at concrete queries. -/
theorem c6_query_intent_first_match_witness :
    classifyQueryIntent "how do i start" = "foundational" ∧
    classifyQueryIntent "this keeps failing" = "specific_problems" := by
  constructor
  · exact c6_query_intent_first_match.1 "how do i start" (by decide)
  · exact c6_query_intent_first_match.2.1 "this keeps failing" (by decide) (by decide)

/-- C1 counterexample: a document with empty page text but filename
"qa" classifies its source type as `live_qa` (not "unknown") and its
classification confidence as 0.3 (not 0.1): the four no-match
placeholder evidence strings count as evidence, so the total evidence
is 4, which falls in the `0 < n < 5` bucket. -/
theorem c1_empty_document_counterexample :
    (classifyDocument ⟨"", fun k => if k = "filename" then some (.str "qa") else none⟩
      ).document_source_type = .live_qa ∧
    (classifyDocument ⟨"", fun k => if k = "filename" then some (.str "qa") else none⟩
      ).classification_confidence = 0.3 ∧
    DocumentSourceType.live_qa ≠ .unknown ∧ (0.3 : ℚ) ≠ 0.1 := by
  refine ⟨by decide, by decide, by decide, by norm_num⟩

/-- C1 amended: for every document whose page text is empty and whose
filename metadata is empty or absent, `classify_document` returns (no
exception is possible: the embedding is total) all three categorical
dimensions "unknown", authority exactly 0.5, every density exactly 0.0,
and classification confidence 0.3 — not 0.1, because each of the four
analysis stages emits one placeholder evidence string. -/
theorem c1_empty_document_amended (md : Metadata) (hf : getFilename md = "") :
    (classifyDocument ⟨"", md⟩).document_source_type = .unknown ∧
    (classifyDocument ⟨"", md⟩).teaching_context = .unknown ∧
    (classifyDocument ⟨"", md⟩).confidence_level = .unknown ∧
    (classifyDocument ⟨"", md⟩).authority_score = 0.5 ∧
    (classifyDocument ⟨"", md⟩).content_quality_indicators =
      [("framework_density", 0), ("tactical_density", 0),
       ("case_study_density", 0), ("contrarian_density", 0)] ∧
    (classifyDocument ⟨"", md⟩).classification_confidence = 0.3 := by
  have e : classifyDocument ⟨"", md⟩ = classifyCD "" (getFilename md) := rfl
  rw [e, hf]
  refine ⟨by decide, by decide, by decide, by decide, by decide, by decide⟩

/-- Witness for C1's amended claim at the empty metadata mapping. -/
theorem c1_empty_document_amended_witness :
    (classifyDocument ⟨"", fun _ => none⟩).document_source_type = .unknown ∧
    (classifyDocument ⟨"", fun _ => none⟩).teaching_context = .unknown ∧
    (classifyDocument ⟨"", fun _ => none⟩).confidence_level = .unknown ∧
    (classifyDocument ⟨"", fun _ => none⟩).authority_score = 0.5 ∧
    (classifyDocument ⟨"", fun _ => none⟩).content_quality_indicators =
      [("framework_density", 0), ("tactical_density", 0),
       ("case_study_density", 0), ("contrarian_density", 0)] ∧
    (classifyDocument ⟨"", fun _ => none⟩).classification_confidence = 0.3 :=
  c1_empty_document_amended (fun _ => none) rfl

end BaseRag
